import Mathlib

/-
Verification of the AutoSentinel vehicle-history application.

Shallow embedding of the relevant parts of the code base:
  - AutoSentinel/settings.py        (ROLE_PERMISSIONS table)
  - main_application/models.py      (Vehicle, VehicleReport, ReportPurchase,
                                     TelemetryTrace and the one-to-one
                                     constraint between a purchase and a report)
  - main_application/views.py       (search_results, vehicle_tracking,
                                     generate_report, report_detail,
                                     purchase_report, api_vehicle_lookup,
                                     api_telemetry_data, is_admin)
  - management/commands/seed_data.py (seed_vehicle_reports body, per report)

Monetary Decimal values are modelled in cents (29.99 becomes 2999); GPS
Decimal coordinates are modelled as integers scaled by 10^6; datetimes are
modelled as abstract Nat instants. None of the verified statements depends
on the numeric behaviour of those carriers.
-/

namespace AutoSentinel

/-- Primitive JSON values appearing in the JsonResponse bodies of the two API
views (strings, integers, booleans and null for a missing speed). -/
inductive JsonPrim where
  | str (s : String)
  | int (n : Int)
  | bool (b : Bool)
  | null
deriving Repr, DecidableEq

/-- A flat JSON object: an ordered list of key-value pairs, exactly as the
Python dict literals in the API views enumerate them. -/
abbrev JsonObj := List (String × JsonPrim)

/-- Shape of the bodies produced by the two JSON endpoints: either a flat
object, or an object of the form with a single data key holding an array of
flat objects (the telemetry payload). -/
inductive JsonBody where
  | flat (fields : JsonObj)
  | dataArr (rows : List JsonObj)
deriving Repr, DecidableEq

/-- Vehicle row (models.py, class Vehicle); only the columns the verified
views read. -/
structure Vehicle where
  vin : String
  make : String
  model : String
  year : Int
  currentTitleStatus : String
  currentMileage : Int
  isStolen : Bool
  currentOwnerCount : Int
  consentingForTracking : Bool
deriving Repr, DecidableEq

/-- TelemetryTrace row (models.py); timestamp is kept as its isoformat
string, coordinates as micro-degree integers. -/
structure TelemetryTrace where
  vehicleVin : String
  timestamp : String
  latitudeMicro : Int
  longitudeMicro : Int
  speed : Option Int
deriving Repr, DecidableEq

/-- Authenticated request user (request.user): the id, the
is_authenticated flag and the role column of the custom User model. -/
structure UserRec where
  id : Nat
  isAuthenticated : Bool
  role : String
deriving Repr, DecidableEq

/-- JSON snapshot of vehicle attributes as built by seed_data.py for a
completed report (keys vin, make, model, year, title_status, mileage,
owners). -/
structure VehicleSnapshot where
  vin : String
  make : String
  model : String
  year : Int
  titleStatus : String
  mileage : Int
  owners : Int
deriving Repr, DecidableEq

/-- VehicleReport row (models.py, class VehicleReport); price in cents,
json_data as an optional structured snapshot. -/
structure VehicleReport where
  id : Nat
  vehicleVin : String
  requestedBy : Option Nat
  status : String
  isPaid : Bool
  priceCents : Int
  includeTelemetry : Bool
  includeOwnerHistory : Bool
  jsonData : Option VehicleSnapshot
  generationStartedAt : Option Nat
  generationCompletedAt : Option Nat
deriving Repr, DecidableEq

/-- ReportPurchase row (models.py, class ReportPurchase). The report column
is a OneToOneField: the database enforces that at most one purchase row
exists per report id, which the purchase operation below models as an
integrity failure on a duplicate insert. -/
structure ReportPurchase where
  reportId : Nat
  userId : Option Nat
  amountCents : Int
  paymentStatus : String
  paymentMethod : String
  transactionId : String
  completedAt : Option Nat
deriving Repr, DecidableEq

/-- Persistent store: the tables the verified views touch, plus the id
counter for newly created reports. -/
structure DB where
  vehicles : List Vehicle
  traces : List TelemetryTrace
  reports : List VehicleReport
  purchases : List ReportPurchase
  nextReportId : Nat
deriving Repr, DecidableEq

/-- Vehicle.objects.get(vin=vin) and get_object_or_404(Vehicle, vin=vin):
exact, character-for-character match on the stored VIN. -/
def findVehicle (db : DB) (vin : String) : Option Vehicle :=
  db.vehicles.find? (fun v => v.vin == vin)

/-- VehicleReport lookup by primary key (get_object_or_404 on id). -/
def findReport (db : DB) (reportId : Nat) : Option VehicleReport :=
  db.reports.find? (fun r => r.id == reportId)

/-- Telemetry traces of one vehicle, first 100 rows
(vehicle.telemetry_traces.all()[:100]). -/
def vehicleTraces (db : DB) (vin : String) : List TelemetryTrace :=
  (db.traces.filter (fun t => t.vehicleVin == vin)).take 100

-- ===========================================================================
-- settings.py: ROLE_PERMISSIONS
-- ===========================================================================

/-- The static role-to-capability table ROLE_PERMISSIONS of settings.py,
in source order. -/
def ROLE_PERMISSIONS : List (String × List String) :=
  [ ("guest", ["view_basic_report"]),
    ("verified_buyer", ["view_basic_report", "view_full_report", "purchase_report"]),
    ("dealer", ["view_basic_report", "view_full_report", "purchase_report", "bulk_search"]),
    ("fleet_admin", ["view_basic_report", "view_full_report", "view_telemetry", "manage_fleet"]),
    ("auditor", ["view_all_reports", "view_audit_logs"]),
    ("system_admin", ["full_access"]) ]

/-- Modelled from the spec: the role-permission gate itself (a function from
a role to its capability list) is absent from the source tree, which only
holds the static ROLE_PERMISSIONS dictionary; per the contract in the spec
the gate looks the role up in the static table and an unknown role receives
no capabilities (fails closed). -/
def role_permissions_gate (role : String) : List String :=
  ((ROLE_PERMISSIONS.find? (fun p => p.1 == role)).map Prod.snd).getD []

-- ===========================================================================
-- views.py: helper functions
-- ===========================================================================

/-- Helper is_admin of views.py: authenticated and role among system_admin
and auditor. -/
def is_admin (user : UserRec) : Bool :=
  user.isAuthenticated && (user.role == "system_admin" || user.role == "auditor")

-- ===========================================================================
-- views.py: search_results, VIN branch
-- ===========================================================================

/-- Containment of one character list in another, at any position. -/
def listContainsSub (s pat : List Char) : Bool :=
  (List.range (s.length + 1)).any (fun i => List.take pat.length (List.drop i s) == pat)

/-- ASCII lower-casing of one character. -/
def charLower (c : Char) : Char :=
  if ('A' ≤ c && c ≤ 'Z') then Char.ofNat (c.toNat + 32) else c

/-- Case-insensitive substring containment: the semantics of the Django
icontains field lookup used by search_results. -/
def strContainsCI (s pat : String) : Bool :=
  listContainsSub (s.data.map charLower) (pat.data.map charLower)

/-- The VIN pattern of the RegexValidator on Vehicle.vin: seventeen
characters drawn from A-H, J-N, P, R-Z and the digits. -/
def isVinChar (c : Char) : Bool :=
  (('A' ≤ c) && (c ≤ 'H')) || (('J' ≤ c) && (c ≤ 'N')) || (c == 'P') ||
  (('R' ≤ c) && (c ≤ 'Z')) || (('0' ≤ c) && (c ≤ '9'))

/-- Whether a string matches the 17-character uppercase VIN pattern. -/
def matchesVinPattern (s : String) : Bool :=
  s.data.length == 17 && s.data.all isVinChar

/-- The vin branch of search_results: when the query is nonempty, filter
vehicles with vin icontains query; an empty query short-circuits to no
results. No validation of the query happens before the lookup. -/
def search_results_vin (db : DB) (query : String) : List Vehicle :=
  if query == "" then []
  else db.vehicles.filter (fun v => strContainsCI v.vin query)

-- ===========================================================================
-- views.py: API views
-- ===========================================================================

/-- Response of api_vehicle_lookup: an HTTP status code and a JSON body. -/
def api_vehicle_lookup (db : DB) (vin : String) : Nat × JsonBody :=
  match findVehicle db vin with
  | some v =>
      (200, .flat [ ("vin", .str v.vin), ("make", .str v.make),
                    ("model", .str v.model), ("year", .int v.year),
                    ("title_status", .str v.currentTitleStatus),
                    ("mileage", .int v.currentMileage),
                    ("is_stolen", .bool v.isStolen) ])
  | none => (404, .flat [("error", .str "Vehicle not found")])

/-- Responses a login_required JSON view can produce: a redirect to the
login page, an HTML 404 from get_object_or_404, or a JsonResponse. -/
inductive ApiResponse where
  | loginRedirect
  | notFound404
  | json (status : Nat) (body : JsonBody)
deriving Repr, DecidableEq

/-- One telemetry trace serialised as in api_telemetry_data. -/
def traceRow (t : TelemetryTrace) : JsonObj :=
  [ ("timestamp", .str t.timestamp), ("latitude", .int t.latitudeMicro),
    ("longitude", .int t.longitudeMicro),
    ("speed", match t.speed with | some s => .int s | none => .null) ]

/-- View api_telemetry_data: login required, 404 on unknown VIN, 403 with
an error body when the vehicle does not consent to tracking, otherwise the
first 100 traces serialised under the data key. -/
def api_telemetry_data (db : DB) (user : UserRec) (vin : String) : ApiResponse :=
  if !user.isAuthenticated then .loginRedirect
  else match findVehicle db vin with
  | none => .notFound404
  | some v =>
      if !v.consentingForTracking then
        .json 403 (.flat [("error", .str "Tracking not enabled")])
      else
        .json 200 (.dataArr ((vehicleTraces db v.vin).map traceRow))

-- ===========================================================================
-- views.py: vehicle_tracking
-- ===========================================================================

/-- Responses of the vehicle_tracking page view. -/
inductive TrackingResponse where
  | loginRedirect
  | notFound404
  | redirectWithWarning (target : String) (message : String)
  | renderTracking (telemetry : List TelemetryTrace)
deriving Repr, DecidableEq

/-- View vehicle_tracking: login required, 404 on unknown VIN, redirect to
the vehicle detail page with a warning message when the vehicle does not
consent to tracking, otherwise render the page with the recent traces. -/
def vehicle_tracking (db : DB) (user : UserRec) (vin : String) : TrackingResponse :=
  if !user.isAuthenticated then .loginRedirect
  else match findVehicle db vin with
  | none => .notFound404
  | some v =>
      if !v.consentingForTracking then
        .redirectWithWarning ("vehicle_detail:" ++ vin)
          "This vehicle does not have tracking enabled"
      else .renderTracking (vehicleTraces db v.vin)

-- ===========================================================================
-- views.py: generate_report
-- ===========================================================================

/-- Responses of the generate_report view. -/
inductive GenReportResponse where
  | loginRedirect
  | notFound404
  | renderForm
  | redirectToReport (reportId : Nat)
deriving Repr, DecidableEq

/-- View generate_report: login required, 404 on unknown VIN; on POST it
creates a VehicleReport with status processing, price 29.99, is_paid left
at its false default, include_telemetry only when both requested and the
vehicle consents to tracking, and empty json_data and generation
timestamps; it then redirects to the report detail page. -/
def generate_report (db : DB) (user : UserRec) (vin : String) (isPost : Bool)
    (postIncludeTelemetry : Bool) : DB × GenReportResponse :=
  if !user.isAuthenticated then (db, .loginRedirect)
  else match findVehicle db vin with
  | none => (db, .notFound404)
  | some v =>
      if isPost then
        let report : VehicleReport :=
          { id := db.nextReportId, vehicleVin := v.vin,
            requestedBy := some user.id, status := "processing",
            isPaid := false, priceCents := 2999,
            includeTelemetry := postIncludeTelemetry && v.consentingForTracking,
            includeOwnerHistory := true, jsonData := none,
            generationStartedAt := none, generationCompletedAt := none }
        ({ db with reports := db.reports ++ [report],
                   nextReportId := db.nextReportId + 1 },
          .redirectToReport report.id)
      else (db, .renderForm)

-- ===========================================================================
-- views.py: report_detail
-- ===========================================================================

/-- Responses of the report_detail view. -/
inductive DetailResponse where
  | loginRedirect
  | notFound404
  | redirectWithError (target : String) (message : String)
  | renderDetail (reportId : Nat)
deriving Repr, DecidableEq

/-- View report_detail: login required, 404 on unknown report; access is
denied with a redirect unless the requester is the report owner or an
admin. -/
def report_detail (db : DB) (user : UserRec) (reportId : Nat) : DetailResponse :=
  if !user.isAuthenticated then .loginRedirect
  else match findReport db reportId with
  | none => .notFound404
  | some report =>
      if report.requestedBy != some user.id && !is_admin user then
        .redirectWithError "report_list" "You do not have access to this report"
      else .renderDetail report.id

-- ===========================================================================
-- views.py: purchase_report
-- ===========================================================================

/-- Responses of the purchase_report view; integrityError models the
unhandled database IntegrityError raised when a second purchase row is
inserted for the same report against the OneToOneField constraint. -/
inductive PurchaseResponse where
  | loginRedirect
  | notFound404
  | integrityError
  | redirectToReport (reportId : Nat)
  | renderPurchasePage (reportId : Nat)
deriving Repr, DecidableEq

/-- Effect of report.save() after the purchase handler sets is_paid and
status on the row whose primary key matches. -/
def payReport (rid0 : Nat) (r : VehicleReport) : VehicleReport :=
  if r.id == rid0 then { r with isPaid := true, status := "completed" } else r

/-- View purchase_report: login required, 404 on unknown report; on POST it
inserts a completed ReportPurchase for the report and then flips the report
to is_paid and status completed. The insert hits the one-to-one constraint
when a purchase for this report already exists: the exception aborts the
handler before any state changes, leaving the store untouched. -/
def purchase_report (db : DB) (user : UserRec) (reportId : Nat) (isPost : Bool)
    (now : Nat) : DB × PurchaseResponse :=
  if !user.isAuthenticated then (db, .loginRedirect)
  else match findReport db reportId with
  | none => (db, .notFound404)
  | some report =>
      if isPost then
        if db.purchases.any (fun p => p.reportId == report.id) then
          (db, .integrityError)
        else
          let purchase : ReportPurchase :=
            { reportId := report.id, userId := some user.id,
              amountCents := report.priceCents, paymentStatus := "completed",
              paymentMethod := "credit_card",
              transactionId := "TXN" ++ toString now, completedAt := some now }
          ({ db with purchases := db.purchases ++ [purchase],
                     reports := db.reports.map (payReport report.id) },
            .redirectToReport report.id)
      else (db, .renderPurchasePage report.id)

-- ===========================================================================
-- seed_data.py: seed_vehicle_reports, one report
-- ===========================================================================

/-- The vehicle attribute snapshot written into json_data by the seed
script for a completed report. -/
def vehicleSnapshot (v : Vehicle) : VehicleSnapshot :=
  { vin := v.vin, make := v.make, model := v.model, year := v.year,
    titleStatus := v.currentTitleStatus, mileage := v.currentMileage,
    owners := v.currentOwnerCount }

/-- One iteration of seed_vehicle_reports of seed_data.py, with every
random draw passed in as a parameter: the report is created with is_paid
tied to a completed status, and only for a completed status are the
generation timestamps and the json_data snapshot then populated. -/
def seed_vehicle_report (rid : Nat) (v : Vehicle) (userId : Option Nat)
    (status : String) (priceCents : Int) (includeTelemetryRand : Bool)
    (startedAt completedAt : Nat) : VehicleReport :=
  let base : VehicleReport :=
    { id := rid, vehicleVin := v.vin, requestedBy := userId, status := status,
      isPaid := status == "completed", priceCents := priceCents,
      includeTelemetry := v.consentingForTracking && includeTelemetryRand,
      includeOwnerHistory := true, jsonData := none,
      generationStartedAt := none, generationCompletedAt := none }
  if status == "completed" then
    { base with generationStartedAt := some startedAt,
                generationCompletedAt := some completedAt,
                jsonData := some (vehicleSnapshot v) }
  else base

-- ===========================================================================
-- Report-touching operations and reachable stores
-- ===========================================================================

/-- The two store-mutating report operations of views.py, as POST
requests. -/
inductive Op where
  | genReport (user : UserRec) (vin : String) (postIncludeTelemetry : Bool)
  | purchase (user : UserRec) (reportId : Nat) (now : Nat)

/-- Effect of one operation on the store. -/
def applyOp (db : DB) : Op → DB
  | .genReport u vin inc => (generate_report db u vin true inc).1
  | .purchase u rid now => (purchase_report db u rid true now).1

/-- Effect of a sequence of operations. -/
def run (db : DB) : List Op → DB
  | [] => db
  | op :: ops => run (applyOp db op) ops

/-- A fresh store: fixed vehicle and telemetry tables, no reports and no
purchases yet. -/
def initDB (vehicles : List Vehicle) (traces : List TelemetryTrace) : DB :=
  { vehicles := vehicles, traces := traces, reports := [], purchases := [],
    nextReportId := 0 }

/-- Per-report consistency: either the report is an unpurchased processing
report that is not yet paid, or a completed paid report with a completed
purchase row bound to it. -/
def ReportOk (purchases : List ReportPurchase) (r : VehicleReport) : Prop :=
  (r.status = "processing" ∧ r.isPaid = false ∧
    ∀ p ∈ purchases, p.reportId ≠ r.id) ∨
  (r.status = "completed" ∧ r.isPaid = true ∧
    ∃ p ∈ purchases, p.reportId = r.id ∧ p.paymentStatus = "completed")

/-- Store invariant maintained by the report operations of views.py. -/
structure Inv (db : DB) : Prop where
  reportBound : ∀ r ∈ db.reports, r.id < db.nextReportId
  reportOk : ∀ r ∈ db.reports, ReportOk db.purchases r
  reportGen : ∀ r ∈ db.reports, r.jsonData = none ∧
    r.generationStartedAt = none ∧ r.generationCompletedAt = none
  idsNodup : (db.reports.map (fun r => r.id)).Nodup
  purchaseBound : ∀ p ∈ db.purchases, p.reportId < db.nextReportId

theorem inv_initDB (vehicles : List Vehicle) (traces : List TelemetryTrace) :
    Inv (initDB vehicles traces) := by
  constructor <;> simp [initDB]

theorem inv_generate_report (db : DB) (u : UserRec) (vin : String)
    (isPost inc : Bool) (h : Inv db) :
    Inv (generate_report db u vin isPost inc).1 := by
  unfold generate_report
  cases hauth : u.isAuthenticated with
  | false => simpa using h
  | true =>
    cases hfind : findVehicle db vin with
    | none => simpa using h
    | some v =>
      cases isPost with
      | false => simpa using h
      | true =>
        simp only [Bool.not_true, Bool.false_eq_true, if_false, if_true]
        constructor
        · intro r hr
          rcases List.mem_append.mp hr with hr | hr
          · exact Nat.lt_trans (h.reportBound r hr) (Nat.lt_succ_self _)
          · simp only [List.mem_singleton] at hr
            subst hr
            exact Nat.lt_succ_self _
        · intro r hr
          rcases List.mem_append.mp hr with hr | hr
          · exact h.reportOk r hr
          · simp only [List.mem_singleton] at hr
            subst hr
            left
            refine ⟨rfl, rfl, ?_⟩
            intro p hp
            exact Nat.ne_of_lt (h.purchaseBound p hp)
        · intro r hr
          rcases List.mem_append.mp hr with hr | hr
          · exact h.reportGen r hr
          · simp only [List.mem_singleton] at hr
            subst hr
            exact ⟨rfl, rfl, rfl⟩
        · rw [List.map_append]
          rw [List.nodup_append]
          refine ⟨h.idsNodup, List.nodup_singleton _, ?_⟩
          intro x hx hx'
          simp only [List.map_cons, List.map_nil, List.mem_singleton] at hx'
          subst hx'
          rcases List.mem_map.mp hx with ⟨r, hr, hid⟩
          exact absurd hid (Nat.ne_of_lt (h.reportBound r hr))
        · intro p hp
          exact Nat.lt_trans (h.purchaseBound p hp) (Nat.lt_succ_self _)

theorem payReport_id (rid0 : Nat) (r : VehicleReport) :
    (payReport rid0 r).id = r.id := by
  unfold payReport
  by_cases hr : r.id == rid0 <;> simp [hr]

theorem payReport_fields (rid0 : Nat) (r : VehicleReport) :
    (payReport rid0 r).jsonData = r.jsonData ∧
    (payReport rid0 r).generationStartedAt = r.generationStartedAt ∧
    (payReport rid0 r).generationCompletedAt = r.generationCompletedAt := by
  unfold payReport
  by_cases hr : r.id == rid0 <;> simp [hr]

theorem payReport_eq_self (rid0 : Nat) (r : VehicleReport) (hne : r.id ≠ rid0) :
    payReport rid0 r = r := by
  unfold payReport
  simp [hne]

theorem payReport_eq_paid (rid0 : Nat) (r : VehicleReport) (heq : r.id = rid0) :
    payReport rid0 r = { r with isPaid := true, status := "completed" } := by
  unfold payReport
  simp [heq]

theorem inv_purchase_report (db : DB) (u : UserRec) (rid : Nat)
    (isPost : Bool) (now : Nat) (h : Inv db) :
    Inv (purchase_report db u rid isPost now).1 := by
  unfold purchase_report
  cases hauth : u.isAuthenticated with
  | false => simpa using h
  | true =>
    cases hfind : findReport db rid with
    | none => simpa using h
    | some report =>
      cases isPost with
      | false => simpa using h
      | true =>
        cases hdup : db.purchases.any (fun p => p.reportId == report.id) with
        | true => simpa [hdup] using h
        | false =>
          simp only [Bool.not_true, Bool.false_eq_true, if_false, if_true, hdup]
          have hmem : report ∈ db.reports := List.mem_of_find?_eq_some hfind
          have hno : ∀ p ∈ db.purchases, p.reportId ≠ report.id := by
            intro p hp hpe
            have hany : db.purchases.any (fun p => p.reportId == report.id) = true :=
              List.any_eq_true.mpr ⟨p, hp, by simpa using hpe⟩
            rw [hdup] at hany
            exact Bool.false_ne_true hany
          constructor
          · intro r' hr'
            rcases List.mem_map.mp hr' with ⟨r, hr, rfl⟩
            rw [payReport_id]
            exact h.reportBound r hr
          · intro r' hr'
            rcases List.mem_map.mp hr' with ⟨r, hr, rfl⟩
            by_cases hid : r.id = report.id
            · rw [payReport_eq_paid _ _ hid]
              rcases h.reportOk r hr with hok | hok
              · right
                refine ⟨rfl, rfl, ?_⟩
                refine ⟨_, List.mem_append_right _ (List.mem_singleton_self _), ?_, rfl⟩
                simpa using hid.symm
              · exact absurd (hid ▸ hok.2.2) (by
                  rintro ⟨p, hp, hpe, _⟩
                  exact hno p hp hpe)
            · rw [payReport_eq_self _ _ hid]
              rcases h.reportOk r hr with hok | hok
              · left
                refine ⟨hok.1, hok.2.1, ?_⟩
                intro p hp
                rcases List.mem_append.mp hp with hp | hp
                · exact hok.2.2 p hp
                · simp only [List.mem_singleton] at hp
                  subst hp
                  simpa using fun hcontra => hid hcontra.symm
              · right
                refine ⟨hok.1, hok.2.1, ?_⟩
                rcases hok.2.2 with ⟨p, hp, hpe, hps⟩
                exact ⟨p, List.mem_append_left _ hp, hpe, hps⟩
          · intro r' hr'
            rcases List.mem_map.mp hr' with ⟨r, hr, rfl⟩
            rcases h.reportGen r hr with ⟨h1, h2, h3⟩
            rcases payReport_fields report.id r with ⟨g1, g2, g3⟩
            exact ⟨g1.trans h1, g2.trans h2, g3.trans h3⟩
          · rw [List.map_map]
            have heq : (fun r : VehicleReport => (payReport report.id r).id) =
                (fun r : VehicleReport => r.id) := by
              funext r
              exact payReport_id report.id r
            rw [show ((fun r : VehicleReport => r.id) ∘ payReport report.id) =
                (fun r : VehicleReport => r.id) from heq]
            exact h.idsNodup
          · intro p hp
            rcases List.mem_append.mp hp with hp | hp
            · exact h.purchaseBound p hp
            · simp only [List.mem_singleton] at hp
              subst hp
              exact h.reportBound report hmem

/-- The invariant holds after any single operation. -/
theorem inv_applyOp (db : DB) (op : Op) (h : Inv db) : Inv (applyOp db op) := by
  cases op with
  | genReport u vin inc => exact inv_generate_report db u vin true inc h
  | purchase u rid now => exact inv_purchase_report db u rid true now h

/-- The invariant holds after any sequence of operations. -/
theorem inv_run (db : DB) (ops : List Op) (h : Inv db) : Inv (run db ops) := by
  induction ops generalizing db with
  | nil => exact h
  | cons op ops ih => exact ih (applyOp db op) (inv_applyOp db op h)

-- ===========================================================================
-- Concrete sample data for witnesses and counterexamples
-- ===========================================================================

/-- A vehicle that does not consent to tracking. -/
def sampleVehicle : Vehicle :=
  { vin := "1HGCM82633A004352", make := "Honda", model := "Accord", year := 2003,
    currentTitleStatus := "clean", currentMileage := 120000, isStolen := false,
    currentOwnerCount := 2, consentingForTracking := false }

/-- A vehicle that consents to tracking. -/
def consentingVehicle : Vehicle :=
  { vin := "5YJ3E1EA7KF317000", make := "Tesla", model := "Model 3", year := 2019,
    currentTitleStatus := "clean", currentMileage := 30000, isStolen := false,
    currentOwnerCount := 1, consentingForTracking := true }

/-- A fresh store holding the two sample vehicles. -/
def sampleDB : DB := initDB [sampleVehicle, consentingVehicle] []

/-- An authenticated verified buyer. -/
def buyerUser : UserRec := { id := 7, isAuthenticated := true, role := "verified_buyer" }

/-- A different authenticated user with the guest role. -/
def strangerUser : UserRec := { id := 8, isAuthenticated := true, role := "guest" }

/-- The buyer requests a report on the sample vehicle, then the stranger
purchases that report. -/
def sampleOps : List Op :=
  [ .genReport buyerUser "1HGCM82633A004352" false,
    .purchase strangerUser 0 5 ]

/-- The store after running the sample operations. -/
def finalDB : DB := run sampleDB sampleOps

/-- The store right after the buyer requested the report. -/
def genDB : DB := (generate_report sampleDB buyerUser "1HGCM82633A004352" true false).1

/-- The freshly created report row. -/
def genReport0 : VehicleReport :=
  { id := 0, vehicleVin := "1HGCM82633A004352", requestedBy := some 7,
    status := "processing", isPaid := false, priceCents := 2999,
    includeTelemetry := false, includeOwnerHistory := true, jsonData := none,
    generationStartedAt := none, generationCompletedAt := none }

/-- The report row after the purchase. -/
def paidReport0 : VehicleReport :=
  { genReport0 with isPaid := true, status := "completed" }

/-- The purchase row created by the purchase operation. -/
def purchase0 : ReportPurchase :=
  { reportId := 0, userId := some 8, amountCents := 2999,
    paymentStatus := "completed", paymentMethod := "credit_card",
    transactionId := "TXN5", completedAt := some 5 }

-- ===========================================================================
-- Claims
-- ===========================================================================

/-- C1: for every role of the static table the role-permission gate returns
exactly the capability list of ROLE_PERMISSIONS, and any role outside the
table receives the empty capability list, failing closed. -/
theorem c1_role_gate_exact :
    role_permissions_gate "guest" = ["view_basic_report"] ∧
    role_permissions_gate "verified_buyer" =
      ["view_basic_report", "view_full_report", "purchase_report"] ∧
    role_permissions_gate "dealer" =
      ["view_basic_report", "view_full_report", "purchase_report", "bulk_search"] ∧
    role_permissions_gate "fleet_admin" =
      ["view_basic_report", "view_full_report", "view_telemetry", "manage_fleet"] ∧
    role_permissions_gate "auditor" = ["view_all_reports", "view_audit_logs"] ∧
    role_permissions_gate "system_admin" = ["full_access"] ∧
    ∀ role : String,
      role ∉ ["guest", "verified_buyer", "dealer", "fleet_admin", "auditor",
              "system_admin"] →
      role_permissions_gate role = [] := by
  refine ⟨by decide, by decide, by decide, by decide, by decide, by decide, ?_⟩
  intro role hrole
  simp only [List.mem_cons, List.not_mem_nil, or_false, not_or] at hrole
  obtain ⟨h1, h2, h3, h4, h5, h6⟩ := hrole
  unfold role_permissions_gate
  have hnone : ROLE_PERMISSIONS.find? (fun p => p.1 == role) = none := by
    rw [List.find?_eq_none]
    intro p hp
    simp only [ROLE_PERMISSIONS, List.mem_cons, List.not_mem_nil, or_false] at hp
    rcases hp with rfl | rfl | rfl | rfl | rfl | rfl <;>
      · intro hh
        simp only [beq_iff_eq] at hh
        subst hh
        simp_all
  rw [hnone]
  rfl

/-- C1 witness: the unknown role stranger receives no capabilities. -/
theorem c1_role_gate_exact_witness :
    role_permissions_gate "stranger" = [] :=
  c1_role_gate_exact.2.2.2.2.2.2 "stranger" (by decide)

/-- C2: for a vehicle that does not consent to tracking, an authenticated
request to the telemetry JSON endpoint returns HTTP 403 with the error body
Tracking not enabled, the tracking page redirects away with a warning, and
neither endpoint ever answers with a list of traces, empty or otherwise. -/
theorem c2_telemetry_consent_denied (db : DB) (u : UserRec) (vin : String)
    (v : Vehicle) (hfind : findVehicle db vin = some v)
    (hconsent : v.consentingForTracking = false) :
    (u.isAuthenticated = true →
      api_telemetry_data db u vin =
        .json 403 (.flat [("error", .str "Tracking not enabled")]) ∧
      vehicle_tracking db u vin =
        .redirectWithWarning ("vehicle_detail:" ++ vin)
          "This vehicle does not have tracking enabled") ∧
    (∀ rows, api_telemetry_data db u vin ≠ .json 200 (.dataArr rows)) ∧
    (∀ tel, vehicle_tracking db u vin ≠ .renderTracking tel) := by
  refine ⟨?_, ?_, ?_⟩
  · intro hauth
    unfold api_telemetry_data vehicle_tracking
    simp [hauth, hfind, hconsent]
  · intro rows
    unfold api_telemetry_data
    cases hauth : u.isAuthenticated <;> simp [hauth, hfind, hconsent]
  · intro tel
    unfold vehicle_tracking
    cases hauth : u.isAuthenticated <;> simp [hauth, hfind, hconsent]

/-- C2 witness: the sample non-consenting vehicle is denied with 403 and
the error body on the telemetry endpoint. -/
theorem c2_telemetry_consent_denied_witness :
    api_telemetry_data sampleDB buyerUser "1HGCM82633A004352" =
      .json 403 (.flat [("error", .str "Tracking not enabled")]) :=
  ((c2_telemetry_consent_denied sampleDB buyerUser "1HGCM82633A004352"
    sampleVehicle (by decide) (by decide)).1 (by decide)).1

/-- C3: in every store reachable by the report operations, a report is paid
exactly when a completed ReportPurchase row bound to it exists; creation
leaves is_paid false, and the purchase step that sets is_paid also holds
the completed purchase row in the same resulting state. -/
theorem c3_paid_iff_completed_purchase (vehicles : List Vehicle)
    (traces : List TelemetryTrace) (ops : List Op) :
    (∀ r ∈ (run (initDB vehicles traces) ops).reports,
      r.isPaid = true ↔
        ∃ p ∈ (run (initDB vehicles traces) ops).purchases,
          p.reportId = r.id ∧ p.paymentStatus = "completed") ∧
    (∀ u vin inc,
      ∀ r ∈ (applyOp (run (initDB vehicles traces) ops)
              (.genReport u vin inc)).reports,
        r ∉ (run (initDB vehicles traces) ops).reports → r.isPaid = false) ∧
    (∀ u rid now,
      ∀ r ∈ (applyOp (run (initDB vehicles traces) ops)
              (.purchase u rid now)).reports,
        r.isPaid = true →
          ∃ p ∈ (applyOp (run (initDB vehicles traces) ops)
                  (.purchase u rid now)).purchases,
            p.reportId = r.id ∧ p.paymentStatus = "completed") := by
  have hinv : Inv (run (initDB vehicles traces) ops) :=
    inv_run _ ops (inv_initDB vehicles traces)
  refine ⟨?_, ?_, ?_⟩
  · intro r hr
    rcases hinv.reportOk r hr with hok | hok
    · constructor
      · intro hpaid
        rw [hok.2.1] at hpaid
        exact absurd hpaid Bool.false_ne_true
      · rintro ⟨p, hp, hpe, -⟩
        exact absurd hpe (hok.2.2 p hp)
    · exact ⟨fun _ => hok.2.2, fun _ => hok.2.1⟩
  · intro u vin inc r hr hnotold
    simp only [applyOp] at hr
    unfold generate_report at hr
    cases hauth : u.isAuthenticated with
    | false =>
      simp only [hauth, Bool.not_false, if_true] at hr
      exact absurd hr hnotold
    | true =>
      cases hfind : findVehicle (run (initDB vehicles traces) ops) vin with
      | none =>
        simp only [hauth, hfind, Bool.not_true, Bool.false_eq_true, if_false] at hr
        exact absurd hr hnotold
      | some v =>
        simp only [hauth, hfind, Bool.not_true, Bool.false_eq_true, if_false,
          if_true] at hr
        rcases List.mem_append.mp hr with hr | hr
        · exact absurd hr hnotold
        · simp only [List.mem_singleton] at hr
          subst hr
          rfl
  · intro u rid now r hr hpaid
    have hinv2 : Inv (applyOp (run (initDB vehicles traces) ops)
        (.purchase u rid now)) :=
      inv_applyOp _ _ hinv
    rcases hinv2.reportOk r hr with hok | hok
    · rw [hok.2.1] at hpaid
      exact absurd hpaid Bool.false_ne_true
    · exact hok.2.2

/-- C3 witness: in the store reached by the sample operations the paid
report has its completed purchase row. -/
theorem c3_paid_iff_completed_purchase_witness :
    paidReport0.isPaid = true ↔
      ∃ p ∈ finalDB.purchases,
        p.reportId = paidReport0.id ∧ p.paymentStatus = "completed" :=
  (c3_paid_iff_completed_purchase [sampleVehicle, consentingVehicle] []
    sampleOps).1 paidReport0 (by decide)

/-- C4: invoking the purchase operation on a report that already has a
purchase row hits the one-to-one integrity constraint: the handler aborts,
no second purchase row is created, and the store, in particular the report,
is unchanged. -/
theorem c4_double_purchase_conflict (db : DB) (u : UserRec) (rid now : Nat)
    (r : VehicleReport) (p : ReportPurchase)
    (hauth : u.isAuthenticated = true)
    (hfind : findReport db rid = some r)
    (hp : p ∈ db.purchases) (hpid : p.reportId = rid) :
    purchase_report db u rid true now = (db, .integrityError) := by
  have hrid : r.id = rid := by
    have := List.find?_some hfind
    simpa using this
  have hany : db.purchases.any (fun q => q.reportId == r.id) = true :=
    List.any_eq_true.mpr ⟨p, hp, by simp [hpid, hrid]⟩
  unfold purchase_report
  simp [hauth, hfind, hany]

/-- C4 witness: purchasing the already-purchased sample report again fails
with the integrity conflict and leaves the store unchanged. -/
theorem c4_double_purchase_conflict_witness :
    purchase_report finalDB buyerUser 0 true 9 = (finalDB, .integrityError) :=
  c4_double_purchase_conflict finalDB buyerUser 0 9 paidReport0 purchase0
    (by decide) (by decide) (by decide) (by decide)

/-- C5 counterexample: the report-generation view creates the report at
status processing, not at the pending start state the claim demands. -/
theorem c5_counterexample :
    (genDB.reports.map (fun r => r.status)) = ["processing"] ∧
    ("processing" : String) ≠ "pending" := by
  constructor <;> decide

/-- C5 amended: every reachable report sits at processing or completed; a
newly created report starts at processing, and the only status change any
operation performs is processing to completed, so nothing moves backwards,
nothing skips ahead from a pending start, and failed is never reached. -/
theorem c5_status_machine (vehicles : List Vehicle)
    (traces : List TelemetryTrace) (ops : List Op) :
    (∀ r ∈ (run (initDB vehicles traces) ops).reports,
        r.status = "processing" ∨ r.status = "completed") ∧
    (∀ op, ∀ r' ∈ (applyOp (run (initDB vehicles traces) ops) op).reports,
        (∃ r ∈ (run (initDB vehicles traces) ops).reports, r.id = r'.id ∧
          (r'.status = r.status ∨
            (r.status = "processing" ∧ r'.status = "completed"))) ∨
        (r'.status = "processing" ∧
          ∀ r ∈ (run (initDB vehicles traces) ops).reports, r.id ≠ r'.id)) := by
  have hinv : Inv (run (initDB vehicles traces) ops) :=
    inv_run _ ops (inv_initDB vehicles traces)
  constructor
  · intro r hr
    rcases hinv.reportOk r hr with hok | hok
    · exact Or.inl hok.1
    · exact Or.inr hok.1
  · intro op r' hr'
    cases op with
    | genReport u vin inc =>
      simp only [applyOp] at hr'
      unfold generate_report at hr'
      cases hauth : u.isAuthenticated with
      | false =>
        simp only [hauth, Bool.not_false, if_true] at hr'
        exact Or.inl ⟨r', hr', rfl, Or.inl rfl⟩
      | true =>
        cases hfind : findVehicle (run (initDB vehicles traces) ops) vin with
        | none =>
          simp only [hauth, hfind, Bool.not_true, Bool.false_eq_true,
            if_false] at hr'
          exact Or.inl ⟨r', hr', rfl, Or.inl rfl⟩
        | some v =>
          simp only [hauth, hfind, Bool.not_true, Bool.false_eq_true, if_false,
            if_true] at hr'
          rcases List.mem_append.mp hr' with hr' | hr'
          · exact Or.inl ⟨r', hr', rfl, Or.inl rfl⟩
          · simp only [List.mem_singleton] at hr'
            subst hr'
            refine Or.inr ⟨rfl, ?_⟩
            intro r hrr
            exact Nat.ne_of_lt (hinv.reportBound r hrr)
    | purchase u rid now =>
      simp only [applyOp] at hr'
      unfold purchase_report at hr'
      cases hauth : u.isAuthenticated with
      | false =>
        simp only [hauth, Bool.not_false, if_true] at hr'
        exact Or.inl ⟨r', hr', rfl, Or.inl rfl⟩
      | true =>
        cases hfind : findReport (run (initDB vehicles traces) ops) rid with
        | none =>
          simp only [hauth, hfind, Bool.not_true, Bool.false_eq_true,
            if_false] at hr'
          exact Or.inl ⟨r', hr', rfl, Or.inl rfl⟩
        | some report =>
          cases hdup : (run (initDB vehicles traces) ops).purchases.any
              (fun p => p.reportId == report.id) with
          | true =>
            simp only [hauth, hfind, hdup, Bool.not_true, Bool.false_eq_true,
              if_false, if_true] at hr'
            exact Or.inl ⟨r', hr', rfl, Or.inl rfl⟩
          | false =>
            simp only [hauth, hfind, hdup, Bool.not_true, Bool.false_eq_true,
              if_false, if_true] at hr'
            have hno : ∀ p ∈ (run (initDB vehicles traces) ops).purchases,
                p.reportId ≠ report.id := by
              intro p hp hpe
              have hpb : (fun p : ReportPurchase => p.reportId == report.id) p = true := by
                simp [hpe]
              have hany : ((run (initDB vehicles traces) ops).purchases.any
                  (fun p => p.reportId == report.id)) = true :=
                List.any_eq_true.mpr ⟨p, hp, hpb⟩
              rw [hdup] at hany
              exact Bool.false_ne_true hany
            rcases List.mem_map.mp hr' with ⟨r, hr, rfl⟩
            by_cases hid : r.id = report.id
            · rcases hinv.reportOk r hr with hok | hok
              · refine Or.inl ⟨r, hr, (payReport_id report.id r).symm, Or.inr ?_⟩
                rw [payReport_eq_paid report.id r hid]
                exact ⟨hok.1, rfl⟩
              · exfalso
                rcases hok.2.2 with ⟨p, hp, hpe, -⟩
                exact hno p hp (hpe.trans hid)
            · rw [payReport_eq_self report.id r hid]
              exact Or.inl ⟨r, hr, rfl, Or.inl rfl⟩

/-- C5 witness: the purchased sample report is at one of the two reachable
statuses. -/
theorem c5_status_machine_witness :
    paidReport0.status = "processing" ∨ paidReport0.status = "completed" :=
  (c5_status_machine [sampleVehicle, consentingVehicle] [] sampleOps).1
    paidReport0 (by decide)

/-- C6 counterexample: the purchase view moves the sample report to
completed while leaving json_data and both generation timestamps empty, so
the transition to completed does not populate the snapshot. -/
theorem c6_counterexample :
    (finalDB.reports.map (fun r =>
      (r.status, r.jsonData, r.generationStartedAt, r.generationCompletedAt))) =
    [("completed", none, none, none)] := by decide

/-- C6 amended: the request handlers never populate json_data or the
generation timestamps, even on the purchase transition to completed; the
JSON snapshot of the vehicle attributes and both timestamps are populated
exactly by the seed script when it creates a report with completed
status. -/
theorem c6_snapshot_only_in_seed (vehicles : List Vehicle)
    (traces : List TelemetryTrace) (ops : List Op) :
    (∀ r ∈ (run (initDB vehicles traces) ops).reports,
      r.jsonData = none ∧ r.generationStartedAt = none ∧
      r.generationCompletedAt = none) ∧
    (∀ (rid : Nat) (v : Vehicle) (userId : Option Nat) (priceCents : Int)
        (incRand : Bool) (startedAt completedAt : Nat),
      (seed_vehicle_report rid v userId "completed" priceCents incRand
          startedAt completedAt).jsonData = some (vehicleSnapshot v) ∧
      (seed_vehicle_report rid v userId "completed" priceCents incRand
          startedAt completedAt).generationStartedAt = some startedAt ∧
      (seed_vehicle_report rid v userId "completed" priceCents incRand
          startedAt completedAt).generationCompletedAt = some completedAt ∧
      (seed_vehicle_report rid v userId "completed" priceCents incRand
          startedAt completedAt).status = "completed") := by
  constructor
  · exact (inv_run _ ops (inv_initDB vehicles traces)).reportGen
  · intro rid v userId priceCents incRand startedAt completedAt
    unfold seed_vehicle_report
    simp

/-- C6 witness: the purchased sample report carries no snapshot and no
generation timestamps. -/
theorem c6_snapshot_only_in_seed_witness :
    paidReport0.jsonData = none ∧ paidReport0.generationStartedAt = none ∧
    paidReport0.generationCompletedAt = none :=
  (c6_snapshot_only_in_seed [sampleVehicle, consentingVehicle] [] sampleOps).1
    paidReport0 (by decide)

/-- C7: a report created by generate_report stores include_telemetry as the
conjunction of the requested flag and the vehicle consent flag, so a
telemetry request on a non-consenting vehicle yields include_telemetry
false. -/
theorem c7_include_telemetry_requires_consent (db : DB) (u : UserRec)
    (vin : String) (inc : Bool) (v : Vehicle)
    (hauth : u.isAuthenticated = true) (hfind : findVehicle db vin = some v) :
    ∀ r ∈ (generate_report db u vin true inc).1.reports, r ∉ db.reports →
      r.includeTelemetry = (inc && v.consentingForTracking) ∧
      (r.includeTelemetry = true → v.consentingForTracking = true) ∧
      (v.consentingForTracking = false → r.includeTelemetry = false) := by
  intro r hr hnotold
  unfold generate_report at hr
  simp only [hauth, hfind, Bool.not_true, Bool.false_eq_true, if_false,
    if_true] at hr
  rcases List.mem_append.mp hr with hr | hr
  · exact absurd hr hnotold
  · simp only [List.mem_singleton] at hr
    subst hr
    refine ⟨rfl, ?_, ?_⟩
    · intro hpos
      exact (by simpa using hpos : inc = true ∧ v.consentingForTracking = true).2
    · intro hneg
      simp [hneg]

/-- C7 witness: requesting telemetry inclusion on the non-consenting
sample vehicle produces a report with include_telemetry false. -/
theorem c7_include_telemetry_requires_consent_witness :
    genReport0.includeTelemetry = false :=
  ((c7_include_telemetry_requires_consent sampleDB buyerUser
    "1HGCM82633A004352" true sampleVehicle (by decide) (by decide))
    genReport0 (by decide) (by decide)).2.2 (by decide)

/-- C8: the vehicle lookup endpoint returns HTTP 200 and a flat JSON object
with exactly the seven documented fields when a vehicle with the VIN
exists, and HTTP 404 with the error body Vehicle not found when none
does. -/
theorem c8_vehicle_lookup_shape (db : DB) (vin : String) :
    (∀ v, findVehicle db vin = some v →
      api_vehicle_lookup db vin =
        (200, .flat [ ("vin", .str v.vin), ("make", .str v.make),
                      ("model", .str v.model), ("year", .int v.year),
                      ("title_status", .str v.currentTitleStatus),
                      ("mileage", .int v.currentMileage),
                      ("is_stolen", .bool v.isStolen) ]) ∧
      ∀ fields, api_vehicle_lookup db vin = (200, .flat fields) →
        fields.map Prod.fst =
          ["vin", "make", "model", "year", "title_status", "mileage",
           "is_stolen"]) ∧
    (findVehicle db vin = none →
      api_vehicle_lookup db vin =
        (404, .flat [("error", .str "Vehicle not found")])) := by
  constructor
  · intro v hfind
    have hcomp : api_vehicle_lookup db vin =
        (200, .flat [ ("vin", .str v.vin), ("make", .str v.make),
                      ("model", .str v.model), ("year", .int v.year),
                      ("title_status", .str v.currentTitleStatus),
                      ("mileage", .int v.currentMileage),
                      ("is_stolen", .bool v.isStolen) ]) := by
      unfold api_vehicle_lookup
      simp [hfind]
    refine ⟨hcomp, ?_⟩
    intro fields hf
    rw [hcomp] at hf
    have hfields := (Prod.mk.injEq _ _ _ _).mp hf.symm
    cases hfields.2
    rfl
  · intro hfind
    unfold api_vehicle_lookup
    simp [hfind]

/-- C8 witness: the sample vehicle is returned with the seven fields and
the unknown VIN of seventeen Z characters yields the 404 error body. -/
theorem c8_vehicle_lookup_shape_witness :
    api_vehicle_lookup sampleDB "1HGCM82633A004352" =
      (200, .flat [ ("vin", .str "1HGCM82633A004352"), ("make", .str "Honda"),
                    ("model", .str "Accord"), ("year", .int 2003),
                    ("title_status", .str "clean"), ("mileage", .int 120000),
                    ("is_stolen", .bool false) ]) ∧
    api_vehicle_lookup sampleDB "ZZZZZZZZZZZZZZZZZ" =
      (404, .flat [("error", .str "Vehicle not found")]) :=
  ⟨((c8_vehicle_lookup_shape sampleDB "1HGCM82633A004352").1 sampleVehicle
      (by decide)).1,
   (c8_vehicle_lookup_shape sampleDB "ZZZZZZZZZZZZZZZZZ").2 (by decide)⟩

/-- C9 counterexample: the lowercase five-character query 1hgcm does not
match the seventeen-character uppercase VIN pattern, yet the VIN search
performs the lookup anyway and matches the sample vehicle
case-insensitively instead of rejecting the query. -/
theorem c9_counterexample :
    matchesVinPattern "1hgcm" = false ∧
    search_results_vin sampleDB "1hgcm" = [sampleVehicle] := by
  constructor <;> decide

/-- C9 amended: no code path rejects a malformed query before lookup; the
search view matches vehicles by case-insensitive substring containment of
the query in the stored VIN, while the JSON lookup endpoint succeeds
exactly when some stored VIN is character-for-character equal to the
query. -/
theorem c9_vin_matching (db : DB) (q : String) :
    (∀ v ∈ db.vehicles,
      (v ∈ search_results_vin db q ↔ (¬q = "" ∧ strContainsCI v.vin q = true))) ∧
    (∀ v, findVehicle db q = some v → v ∈ db.vehicles ∧ v.vin = q) ∧
    ((api_vehicle_lookup db q).1 = 200 ↔ ∃ v ∈ db.vehicles, v.vin = q) := by
  refine ⟨?_, ?_, ?_⟩
  · intro v hv
    unfold search_results_vin
    by_cases hq : q = ""
    · simp [hq]
    · simp [hq, List.mem_filter, hv]
  · intro v hfind
    refine ⟨List.mem_of_find?_eq_some hfind, ?_⟩
    have := List.find?_some hfind
    simpa using this
  · constructor
    · intro h200
      unfold api_vehicle_lookup at h200
      cases hfind : findVehicle db q with
      | none => rw [hfind] at h200; simp at h200
      | some v =>
        refine ⟨v, List.mem_of_find?_eq_some hfind, ?_⟩
        have := List.find?_some hfind
        simpa using this
    · rintro ⟨v, hv, hvin⟩
      unfold api_vehicle_lookup
      cases hfind : findVehicle db q with
      | none =>
        exfalso
        have := List.find?_eq_none.mp hfind v hv
        simp [hvin] at this
      | some w => rfl

/-- C9 amended witness: the exact sample VIN is found by the endpoint and
the lowercase partial query matches the sample vehicle in the search
view. -/
theorem c9_vin_matching_witness :
    (api_vehicle_lookup sampleDB "1HGCM82633A004352").1 = 200 ∧
    sampleVehicle ∈ search_results_vin sampleDB "1hgcm" :=
  ⟨(c9_vin_matching sampleDB "1HGCM82633A004352").2.2.mpr
      ⟨sampleVehicle, by decide, by decide⟩,
   ((c9_vin_matching sampleDB "1hgcm").1 sampleVehicle (by decide)).mpr
      ⟨by decide, by decide⟩⟩

/-- C10: the purchase view enforces no ownership or role check: an
authenticated user who did not request the report and is no admin can still
purchase it, flipping it to paid and completed, even though the detail view
denies that same user access to the same report. -/
theorem c10_purchase_lacks_ownership_check (db : DB) (u : UserRec)
    (rid now : Nat) (r : VehicleReport)
    (hauth : u.isAuthenticated = true)
    (hfind : findReport db rid = some r)
    (hno : ∀ p ∈ db.purchases, p.reportId ≠ rid)
    (howner : r.requestedBy ≠ some u.id)
    (hadmin : is_admin u = false) :
    (purchase_report db u rid true now).2 = .redirectToReport rid ∧
    (∃ r' ∈ (purchase_report db u rid true now).1.reports,
        r'.id = rid ∧ r'.isPaid = true ∧ r'.status = "completed") ∧
    report_detail db u rid =
      .redirectWithError "report_list" "You do not have access to this report" := by
  have hrid : r.id = rid := by
    have := List.find?_some hfind
    simpa using this
  have hmem : r ∈ db.reports := List.mem_of_find?_eq_some hfind
  have hany : db.purchases.any (fun p => p.reportId == r.id) = false := by
    cases hcase : db.purchases.any (fun p => p.reportId == r.id) with
    | false => rfl
    | true =>
      exfalso
      rcases List.any_eq_true.mp hcase with ⟨p, hp, hpe⟩
      exact hno p hp ((by simpa using hpe : p.reportId = r.id).trans hrid)
  refine ⟨?_, ?_, ?_⟩
  · unfold purchase_report
    simp only [hauth, hfind, hany, Bool.not_true, Bool.false_eq_true, if_false,
      if_true]
    simp [hrid]
  · refine ⟨payReport r.id r, ?_, ?_, ?_, ?_⟩
    · unfold purchase_report
      simp only [hauth, hfind, hany, Bool.not_true, Bool.false_eq_true,
        if_false, if_true]
      exact List.mem_map.mpr ⟨r, hmem, rfl⟩
    · rw [payReport_id]
      exact hrid
    · rw [payReport_eq_paid r.id r rfl]
    · rw [payReport_eq_paid r.id r rfl]
  · unfold report_detail
    have hcond : (r.requestedBy != some u.id && !is_admin u) = true := by
      simp [hadmin, bne_iff_ne, howner]
    simp [hauth, hfind, hcond]

/-- C10 witness: the stranger, who did not request the sample report and is
no admin, successfully purchases it while being denied its detail page. -/
theorem c10_purchase_lacks_ownership_check_witness :
    (purchase_report genDB strangerUser 0 true 5).2 = .redirectToReport 0 ∧
    (∃ r' ∈ (purchase_report genDB strangerUser 0 true 5).1.reports,
        r'.id = 0 ∧ r'.isPaid = true ∧ r'.status = "completed") ∧
    report_detail genDB strangerUser 0 =
      .redirectWithError "report_list" "You do not have access to this report" :=
  c10_purchase_lacks_ownership_check genDB strangerUser 0 5 genReport0
    (by decide) (by decide) (by decide) (by decide) (by decide)

end AutoSentinel
